import Mathlib

/-!
Shallow embedding of the virtual try-on session core
(`src/unnamed/part_000` = Canvas/WardrobePanel components,
`src/unnamed/part_001` = wardrobe seed + App component).

The App component's React state is collected into one `AppState` record;
each event handler becomes a pure function `AppState → … → AppState × Nat`
where the `Nat` counts how many Image Generation Gateway calls the handler
issued (0 or 1).  The outcome of the single awaited Gateway call is passed
in as an `Except String String` value (`.ok image` / `.error message`),
which makes the success and failure continuations of each handler explicit.

A JS object used as a string-keyed map (`poseImages`) is modeled as an
association list in key-insertion order: `Object.keys` / `Object.values`
enumerate in insertion order for string keys, and assigning to an existing
key keeps its position while assigning a fresh key appends it.
-/

namespace VTO

structure WardrobeItem where
  id : String
  name : String
  url : String
deriving DecidableEq

/-- A JS object mapping pose-instruction strings to image data-URLs,
in key-insertion order. -/
abbrev PoseImages := List (String × String)

structure OutfitLayer where
  garment : Option WardrobeItem
  poseImages : PoseImages
deriving DecidableEq

def emptyLayer : OutfitLayer := { garment := none, poseImages := [] }

/-- JS property read `m[k]`: value of the first (only) entry with key `k`. -/
def objGet (m : PoseImages) (k : String) : Option String :=
  (m.find? (fun p => p.1 == k)).map (fun p => p.2)

/-- JS property write `m[k] = v`: overwrite in place if the key exists,
append a fresh entry otherwise. -/
def objSet (m : PoseImages) (k v : String) : PoseImages :=
  if m.any (fun p => p.1 == k) then
    m.map (fun p => if p.1 == k then (k, v) else p)
  else m ++ [(k, v)]

/-- The React state of the App component (src/unnamed/part_001, lines 89-98).
Presentation-only pieces (`isSheetCollapsed`, media query) are omitted. -/
structure AppState where
  modelImageUrl : Option String
  outfitHistory : List OutfitLayer
  currentOutfitIndex : Nat
  isLoading : Bool
  loadingMessage : String
  error : Option String
  currentPoseIndex : Nat
  poseInstructions : List String
  wardrobe : List WardrobeItem
deriving DecidableEq

/-- Result of the one awaited Gateway call of a mutating operation. -/
abbrev GatewayResult := Except String String

/-- JS whitespace as far as the pose prompts are concerned. -/
def jsIsSpace (c : Char) : Bool :=
  c == ' ' || c == '\t' || c == '\n' || c == '\r'

/-- JS `String.prototype.trim`: strip leading and trailing whitespace. -/
def jsTrim (s : String) : String :=
  ⟨((s.data.dropWhile jsIsSpace).reverse.dropWhile jsIsSpace).reverse⟩

/-- JS `String.prototype.toLowerCase` on the ASCII pose texts. -/
def jsToLower (s : String) : String :=
  ⟨s.data.map Char.toLower⟩

/-- Modelled from the spec: `getFriendlyErrorMessage` lives in `lib/utils`,
which is not among the provided sources.  Spec sections 6 and 7 require every
Gateway failure to be converted into a single human-readable display string
built from the failure and an operation-specific fallback; the exact
formatting is irrelevant to the claims, only that a (non-null) string comes
back. -/
def getFriendlyErrorMessage (err : String) (fallback : String) : String :=
  fallback ++ ": " ++ err

/-- JS array index that appears as an object key or is compared with `===`:
an out-of-range read yields `undefined`, which stringifies to "undefined"
when used as a property key. -/
def jsGetD (l : List String) (i : Nat) : String := l.getD i "undefined"

/-- src/unnamed/part_001 lines 111-120: the derived displayed image. -/
def displayImageUrl (s : AppState) : Option String :=
  if s.outfitHistory.isEmpty then s.modelImageUrl
  else
    match s.outfitHistory[s.currentOutfitIndex]? with
    | none => s.modelImageUrl
    | some currentLayer =>
      match objGet currentLayer.poseImages (jsGetD s.poseInstructions s.currentPoseIndex) with
      | some img => some img
      | none => (currentLayer.poseImages.map (fun p => p.2)).head?

/-- JS truthiness of `displayImageUrl` (both `undefined` and `""` are falsy). -/
def hasDisplay (s : AppState) : Bool :=
  (displayImageUrl s).getD "" ≠ ""

/-- src/unnamed/part_001 lines 122-126. -/
def availablePoseKeys (s : AppState) : List String :=
  if s.outfitHistory.isEmpty then []
  else
    match s.outfitHistory[s.currentOutfitIndex]? with
    | some currentLayer => currentLayer.poseImages.map (fun p => p.1)
    | none => []

/-- src/unnamed/part_001 lines 128-135. -/
def handleModelFinalized (s : AppState) (url : String) : AppState :=
  { s with
    modelImageUrl := some url
    outfitHistory := [{ garment := none
                        poseImages := [(jsGetD s.poseInstructions 0, url)] }]
    currentOutfitIndex := 0 }

/-- src/unnamed/part_001 lines 154-155: `nextLayer && nextLayer.garment?.id === garmentInfo.id`. -/
def cacheHit (s : AppState) (garmentInfo : WardrobeItem) : Bool :=
  match s.outfitHistory[s.currentOutfitIndex + 1]? with
  | some nextLayer =>
    match nextLayer.garment with
    | some g => g.id == garmentInfo.id
    | none => false
  | none => false

/-- The generation path of `handleGarmentSelect`
(src/unnamed/part_001 lines 161-193). -/
def garmentSelectGateway (s : AppState) (garmentInfo : WardrobeItem)
    (gw : GatewayResult) : AppState × Nat :=
  let s1 := { s with error := none, isLoading := true
                     loadingMessage := "Adding " ++ garmentInfo.name ++ "..." }
  match gw with
  | .ok newImageUrl =>
    let currentPoseInstruction := jsGetD s.poseInstructions s.currentPoseIndex
    let newLayer : OutfitLayer :=
      { garment := some garmentInfo
        poseImages := [(currentPoseInstruction, newImageUrl)] }
    let newHistory := s.outfitHistory.take (s.currentOutfitIndex + 1) ++ [newLayer]
    let newWardrobe :=
      if s.wardrobe.any (fun item => item.id == garmentInfo.id) then s.wardrobe
      else s.wardrobe ++ [garmentInfo]
    ({ s1 with outfitHistory := newHistory
               currentOutfitIndex := s.currentOutfitIndex + 1
               wardrobe := newWardrobe
               isLoading := false, loadingMessage := "" }, 1)
  | .error e =>
    ({ s1 with error := some (getFriendlyErrorMessage e "Failed to apply garment")
               isLoading := false, loadingMessage := "" }, 1)

/-- src/unnamed/part_001 lines 150-194. -/
def handleGarmentSelect (s : AppState) (garmentInfo : WardrobeItem)
    (gw : GatewayResult) : AppState × Nat :=
  if !(hasDisplay s) || s.isLoading then (s, 0)
  else if cacheHit s garmentInfo then
    ({ s with currentOutfitIndex := s.currentOutfitIndex + 1
              currentPoseIndex := 0 }, 0)
  else garmentSelectGateway s garmentInfo gw

/-- src/unnamed/part_001 lines 196-201.  Note: unlike the asynchronous
handlers, this one has no `isLoading` guard (and the OutfitStack panel that
invokes it is not passed `isLoading` either). -/
def handleRemoveLastGarment (s : AppState) : AppState :=
  if s.currentOutfitIndex > 0 then
    { s with currentOutfitIndex := s.currentOutfitIndex - 1
             currentPoseIndex := 0 }
  else s

/-- The layer read `outfitHistory[currentOutfitIndex]` performed by the pose
handlers after the non-empty-history guard. -/
def layerAtCursor (s : AppState) : OutfitLayer :=
  s.outfitHistory.getD s.currentOutfitIndex emptyLayer

/-- JS truthiness check `currentLayer.poseImages[poseInstruction]`
(src/unnamed/part_001 line 210). -/
def poseCached (s : AppState) (poseInstruction : String) : Bool :=
  (objGet (layerAtCursor s).poseImages poseInstruction).getD "" ≠ ""

/-- `Object.values(currentLayer.poseImages)[0]` coerced through JS truthiness
(`undefined` and `""` both reject). -/
def baseImageOf (L : OutfitLayer) : String :=
  ((L.poseImages.map (fun p => p.2)).head?).getD ""

/-- The generation path of `handlePoseSelect`
(src/unnamed/part_001 lines 220-243). -/
def poseSelectGateway (s : AppState) (newIndex : Nat) (poseInstruction : String)
    (gw : GatewayResult) : AppState × Nat :=
  let prevPoseIndex := s.currentPoseIndex
  let s1 := { s with error := none, isLoading := true
                     loadingMessage := "Changing pose..."
                     currentPoseIndex := newIndex }
  match gw with
  | .ok newImageUrl =>
    let layer := layerAtCursor s
    let newHistory := s.outfitHistory.set s.currentOutfitIndex
      { layer with poseImages := objSet layer.poseImages poseInstruction newImageUrl }
    ({ s1 with outfitHistory := newHistory
               isLoading := false, loadingMessage := "" }, 1)
  | .error e =>
    ({ s1 with error := some (getFriendlyErrorMessage e "Failed to change pose")
               currentPoseIndex := prevPoseIndex
               isLoading := false, loadingMessage := "" }, 1)

/-- src/unnamed/part_001 lines 203-244. -/
def handlePoseSelect (s : AppState) (newIndex : Nat)
    (gw : GatewayResult) : AppState × Nat :=
  if s.isLoading || s.outfitHistory.isEmpty || newIndex == s.currentPoseIndex then (s, 0)
  else
    let poseInstruction := jsGetD s.poseInstructions newIndex
    if poseCached s poseInstruction then
      ({ s with currentPoseIndex := newIndex }, 0)
    else if baseImageOf (layerAtCursor s) == "" then (s, 0)
    else poseSelectGateway s newIndex poseInstruction gw

/-- The generation path of `handleCustomPoseGenerate`
(src/unnamed/part_001 lines 261-288). -/
def customPoseGateway (s : AppState) (trimmedPrompt : String)
    (gw : GatewayResult) : AppState × Nat :=
  let prevPoseIndex := s.currentPoseIndex
  let newPoseIndex := s.poseInstructions.length
  let s1 := { s with error := none, isLoading := true
                     loadingMessage := "Creating custom pose..."
                     poseInstructions := s.poseInstructions ++ [trimmedPrompt]
                     currentPoseIndex := newPoseIndex }
  match gw with
  | .ok newImageUrl =>
    let layer := layerAtCursor s
    let newHistory := s.outfitHistory.set s.currentOutfitIndex
      { layer with poseImages := objSet layer.poseImages trimmedPrompt newImageUrl }
    ({ s1 with outfitHistory := newHistory
               isLoading := false, loadingMessage := "" }, 1)
  | .error e =>
    ({ s1 with error := some (getFriendlyErrorMessage e "Failed to create custom pose")
               currentPoseIndex := prevPoseIndex
               poseInstructions :=
                 (s.poseInstructions ++ [trimmedPrompt]).filter (fun p => p ≠ trimmedPrompt)
               isLoading := false, loadingMessage := "" }, 1)

/-- src/unnamed/part_001 lines 246-289. -/
def handleCustomPoseGenerate (s : AppState) (posePrompt : String)
    (gw : GatewayResult) : AppState × Nat :=
  if jsTrim posePrompt == "" || s.isLoading || !(hasDisplay s) then (s, 0)
  else
    let trimmedPrompt := jsTrim posePrompt
    match s.poseInstructions.findIdx? (fun p => jsToLower p == jsToLower trimmedPrompt) with
    | some existingIndex => handlePoseSelect s existingIndex gw
    | none =>
      if baseImageOf (layerAtCursor s) == "" then (s, 0)
      else customPoseGateway s trimmedPrompt gw

/-- src/unnamed/part_001 lines 292-317 (`handleBackgroundChange`); the
image-upload variant on lines 319-344 performs the identical state
transition, differing only in which Gateway operation produced `gw`, so one
function models both. -/
def handleBackgroundChange (s : AppState) (gw : GatewayResult) : AppState × Nat :=
  if s.isLoading || !(hasDisplay s) then (s, 0)
  else
    let s1 := { s with error := none, isLoading := true
                       loadingMessage := "Changing background..." }
    match gw with
    | .ok newImageUrl =>
      let newHistory :=
        match s.outfitHistory[s.currentOutfitIndex]? with
        | some currentLayer =>
          let currentPoseInstruction := s.poseInstructions.getD s.currentPoseIndex ""
          if currentPoseInstruction ≠ "" then
            s.outfitHistory.set s.currentOutfitIndex
              { currentLayer with
                poseImages := objSet currentLayer.poseImages currentPoseInstruction newImageUrl }
          else s.outfitHistory
        | none => s.outfitHistory
      ({ s1 with outfitHistory := newHistory
                 isLoading := false, loadingMessage := "" }, 1)
    | .error e =>
      ({ s1 with error := some (getFriendlyErrorMessage e "Failed to change background")
                 isLoading := false, loadingMessage := "" }, 1)

/-- src/unnamed/part_000 lines 95-120 (Canvas `handleNextPose`), as a pure
function of the props it reads; the returned value is the index passed to
`onSelectPose`, or `none` when no call is made. -/
def handleNextPose (isLoading : Bool) (poseInstructions : List String)
    (currentPoseIndex : Nat) (availableKeys : List String) : Option Nat :=
  if isLoading then none
  else
    let currentPoseInstruction := jsGetD poseInstructions currentPoseIndex
    match availableKeys.findIdx? (fun p => p == currentPoseInstruction) with
    | none => some ((currentPoseIndex + 1) % poseInstructions.length)
    | some currentIndexInAvailable =>
      if currentIndexInAvailable + 1 < availableKeys.length then
        match poseInstructions.findIdx?
            (fun p => p == jsGetD availableKeys (currentIndexInAvailable + 1)) with
        | some newGlobalPoseIndex => some newGlobalPoseIndex
        | none => none
      else some ((currentPoseIndex + 1) % poseInstructions.length)

/-- N garment applies in sequence, each resolving successfully with the
paired image. -/
def applyMany (s : AppState) (ops : List (WardrobeItem × String)) : AppState :=
  ops.foldl (fun t op => (handleGarmentSelect t op.1 (Except.ok op.2)).1) s

/-- The spec's reading of forward pose navigation (spec section 4.2,
`cycleNext`): the available subsequence is the set of rendered instructions
taken in CATALOG order, the current instruction is located in it, and its
successor there (if any) is mapped back to its catalog index.  This is the
statement to be compared against `handleNextPose`, which instead consumes
`availablePoseKeys` in key-insertion order. -/
def specCycleNextCatalog (poseInstructions : List String) (currentPoseIndex : Nat)
    (renderedKeys : List String) : Option Nat :=
  let avail := poseInstructions.filter (fun p => renderedKeys.contains p)
  let currentPoseInstruction := jsGetD poseInstructions currentPoseIndex
  match avail.findIdx? (fun p => p == currentPoseInstruction) with
  | some i =>
    if i + 1 < avail.length then
      poseInstructions.findIdx? (fun p => p == jsGetD avail (i + 1))
    else some ((currentPoseIndex + 1) % poseInstructions.length)
  | none => some ((currentPoseIndex + 1) % poseInstructions.length)

/-! Concrete session states used by the witnesses and counterexamples. -/

def itemA : WardrobeItem := { id := "g1", name := "G1", url := "u1" }

def itemB : WardrobeItem := { id := "g2", name := "G2", url := "u2" }

def rootLayer : OutfitLayer := { garment := none, poseImages := [("A", "m0")] }

/-- A fresh session right before the model is finalized. -/
def freshInit : AppState :=
  { modelImageUrl := none, outfitHistory := [], currentOutfitIndex := 0
    isLoading := false, loadingMessage := "", error := none
    currentPoseIndex := 0, poseInstructions := ["A", "B", "C"], wardrobe := [] }

/-- An idle session with just the root layer and a stale error on display. -/
def oneLayerState : AppState :=
  { modelImageUrl := some "m0", outfitHistory := [rootLayer]
    currentOutfitIndex := 0, isLoading := false, loadingMessage := ""
    error := some "old failure", currentPoseIndex := 0
    poseInstructions := ["A", "B", "C"], wardrobe := [] }

/-- A session suspended mid-mutation (busy flag set) with one garment layer
beyond the root and the cursor on it. -/
def busyState : AppState :=
  { modelImageUrl := some "m0"
    outfitHistory := [rootLayer, { garment := some itemA, poseImages := [("A", "i1")] }]
    currentOutfitIndex := 1, isLoading := true, loadingMessage := "Adding G1..."
    error := none, currentPoseIndex := 1
    poseInstructions := ["A", "B", "C"], wardrobe := [] }

/-- An idle session whose redo buffer holds a cached `itemA` layer right
after the cursor. -/
def redoState : AppState :=
  { modelImageUrl := some "m0"
    outfitHistory := [rootLayer, { garment := some itemA, poseImages := [("A", "i1")] }]
    currentOutfitIndex := 0, isLoading := false, loadingMessage := ""
    error := none, currentPoseIndex := 1
    poseInstructions := ["A", "B", "C"], wardrobe := [] }

/-- An idle session whose root layer has both pose "A" and pose "B" rendered. -/
def twoPoseState : AppState :=
  { modelImageUrl := some "m0"
    outfitHistory := [{ garment := none, poseImages := [("A", "m0"), ("B", "m1")] }]
    currentOutfitIndex := 0, isLoading := false, loadingMessage := ""
    error := some "old failure", currentPoseIndex := 0
    poseInstructions := ["A", "B", "C"], wardrobe := [] }

/-- A session whose active garment layer rendered pose "B" first and pose "A"
second, so its key-insertion order disagrees with the catalog order
(reachable: finalize at "A", repose the root to "B", apply a garment while at
"B", then repose the new layer back to "A"). -/
def poseOrderState : AppState :=
  { modelImageUrl := some "m0"
    outfitHistory := [{ garment := none, poseImages := [("A", "m0"), ("B", "m1")] },
                      { garment := some itemA, poseImages := [("B", "i1"), ("A", "i2")] }]
    currentOutfitIndex := 1, isLoading := false, loadingMessage := ""
    error := none, currentPoseIndex := 1
    poseInstructions := ["A", "B", "C"], wardrobe := [] }

/-- A session with a catalog entry that a custom pose prompt can match
case-insensitively. -/
def dedupState : AppState :=
  { modelImageUrl := some "m0"
    outfitHistory := [{ garment := none, poseImages := [("Side profile", "m0")] }]
    currentOutfitIndex := 0, isLoading := false, loadingMessage := ""
    error := none, currentPoseIndex := 1
    poseInstructions := ["Side profile", "B"], wardrobe := [] }

/-- A layer whose pose cache is non-empty and holds only truthy image
references — what every layer produced by the handlers satisfies. -/
def LayerOK (L : OutfitLayer) : Prop :=
  L.poseImages ≠ [] ∧ ∀ p ∈ L.poseImages, p.2 ≠ ""

/-- The idle-session invariant along a chain of successful garment applies:
the cursor sits on the last layer, no mutation is in flight, and the layer
under the cursor has a well-formed pose cache. -/
def ReadyState (s : AppState) : Prop :=
  s.currentOutfitIndex + 1 = s.outfitHistory.length ∧
  s.isLoading = false ∧
  ∃ L, s.outfitHistory[s.currentOutfitIndex]? = some L ∧ LayerOK L

/-! Helper lemmas about the JS-object association-list operations. -/

theorem objSet_cons_ne (p : String × String) (t : PoseImages) (k v : String)
    (hp : p.1 ≠ k) : objSet (p :: t) k v = p :: objSet t k v := by
  by_cases ht : t.any (fun q => q.1 == k)
  · simp [objSet, List.any_cons, hp, ht]
  · simp [objSet, List.any_cons, hp, ht]

theorem objGet_objSet_self (m : PoseImages) (k v : String) :
    objGet (objSet m k v) k = some v := by
  induction m with
  | nil => simp [objGet, objSet]
  | cons p t ih =>
    by_cases hp : p.1 = k
    · simp [objSet, objGet, List.any_cons, hp]
    · rw [objSet_cons_ne p t k v hp]
      simpa [objGet, List.find?_cons, hp] using ih

theorem objGet_map_set (t : PoseImages) (k v k' : String) (h : k' ≠ k) :
    objGet (t.map (fun q => if q.1 = k then (k, v) else q)) k' = objGet t k' := by
  induction t with
  | nil => simp [objGet]
  | cons q t ih =>
    unfold objGet at ih ⊢
    by_cases hq : q.1 = k
    · rw [List.map_cons, if_pos hq,
        List.find?_cons_of_neg _ (by simp [Ne.symm h]),
        List.find?_cons_of_neg _ (by simp [hq, Ne.symm h])]
      exact ih
    · by_cases hq' : q.1 = k'
      · rw [List.map_cons, if_neg hq,
          List.find?_cons_of_pos _ (by simp [hq']),
          List.find?_cons_of_pos _ (by simp [hq'])]
      · rw [List.map_cons, if_neg hq,
          List.find?_cons_of_neg _ (by simp [hq']),
          List.find?_cons_of_neg _ (by simp [hq'])]
        exact ih

theorem objGet_append_single (l : PoseImages) (k v k' : String) (h : k' ≠ k) :
    objGet (l ++ [(k, v)]) k' = objGet l k' := by
  induction l with
  | nil => simp [objGet, Ne.symm h]
  | cons q t ih =>
    unfold objGet at ih ⊢
    by_cases hq : q.1 = k'
    · rw [List.cons_append, List.find?_cons_of_pos _ (by simp [hq]),
        List.find?_cons_of_pos _ (by simp [hq])]
    · rw [List.cons_append, List.find?_cons_of_neg _ (by simp [hq]),
        List.find?_cons_of_neg _ (by simp [hq])]
      exact ih

theorem objGet_objSet_other (m : PoseImages) (k v k' : String) (h : k' ≠ k) :
    objGet (objSet m k v) k' = objGet m k' := by
  by_cases hm : m.any (fun q => q.1 == k)
  · rw [show objSet m k v = m.map (fun q => if q.1 = k then (k, v) else q) by
      simp [objSet, hm]]
    exact objGet_map_set m k v k' h
  · rw [show objSet m k v = m ++ [(k, v)] by simp [objSet, hm]]
    exact objGet_append_single m k v k' h

theorem getD_of_getElem? {α : Type} (l : List α) (i : Nat) (d a : α)
    (h : l[i]? = some a) : l.getD i d = a := by
  simp [List.getD, h]

/-- No branch of `handlePoseSelect` touches the pose catalog. -/
theorem handlePoseSelect_poseInstructions (s : AppState) (newIndex : Nat)
    (gw : GatewayResult) :
    (handlePoseSelect s newIndex gw).1.poseInstructions = s.poseInstructions := by
  rcases gw with e | img <;>
    simp only [handlePoseSelect, poseSelectGateway] <;>
    (repeat' split) <;> rfl

/-- C1 (amended; counterexample `removeLastGarment_busy_counterexample`):
every Gateway-invoking Session Controller operation — `applyGarment`,
`selectPose`, `generateCustomPose`, `changeBackground` (either variant) —
invoked while the busy flag is set is ignored: it makes no Gateway call and
returns the whole session state unchanged.  `removeLastGarment` is NOT
covered: the code gives it no busy-flag guard (and the panel invoking it
never receives `isLoading`), so while busy it never calls the Gateway but
still steps the cursor back and resets the pose index. -/
theorem asyncOps_rejected_while_busy (s : AppState) (item : WardrobeItem)
    (newIndex : Nat) (posePrompt : String) (gw : GatewayResult)
    (h : s.isLoading = true) :
    handleGarmentSelect s item gw = (s, 0) ∧
    handlePoseSelect s newIndex gw = (s, 0) ∧
    handleCustomPoseGenerate s posePrompt gw = (s, 0) ∧
    handleBackgroundChange s gw = (s, 0) := by
  refine ⟨?_, ?_, ?_, ?_⟩ <;>
    simp [handleGarmentSelect, handlePoseSelect, handleCustomPoseGenerate,
      handleBackgroundChange, h]

/-- C1 counterexample: with a mutation in flight (`isLoading = true`),
`removeLastGarment` is not rejected — it mutates the cursor and the pose
index, so the claimed all-mutating-operations single-flight guard fails for
this operation. -/
theorem removeLastGarment_busy_counterexample :
    busyState.isLoading = true ∧
    handleRemoveLastGarment busyState ≠ busyState ∧
    (handleRemoveLastGarment busyState).currentOutfitIndex = 0 ∧
    (handleRemoveLastGarment busyState).currentPoseIndex = 0 ∧
    busyState.currentOutfitIndex = 1 ∧ busyState.currentPoseIndex = 1 := by
  decide

theorem asyncOps_rejected_while_busy_witness :
    handleGarmentSelect busyState itemB (Except.ok "img") = (busyState, 0) ∧
    handlePoseSelect busyState 2 (Except.ok "img") = (busyState, 0) ∧
    handleCustomPoseGenerate busyState "New pose" (Except.ok "img") = (busyState, 0) ∧
    handleBackgroundChange busyState (Except.ok "img") = (busyState, 0) :=
  asyncOps_rejected_while_busy busyState itemB 2 "New pose" (Except.ok "img") (by decide)

/-- C3: when the layer right after the cursor exists and carries the
requested garment's id, `applyGarment` only advances the cursor by one and
resets the pose index to the catalog's first entry — for any Gateway
outcome, zero Gateway calls are made and every other field (in particular
the history sequence and hence its length) is unchanged. -/
theorem applyGarment_cacheHit_reuse (s : AppState) (item : WardrobeItem)
    (gw : GatewayResult)
    (hdisp : hasDisplay s = true) (hload : s.isLoading = false)
    (hhit : cacheHit s item = true) :
    handleGarmentSelect s item gw =
      ({ s with currentOutfitIndex := s.currentOutfitIndex + 1
                currentPoseIndex := 0 }, 0) := by
  simp [handleGarmentSelect, hdisp, hload, hhit]

theorem applyGarment_cacheHit_reuse_witness :
    handleGarmentSelect redoState itemA (Except.error "network down") =
      ({ redoState with currentOutfitIndex := redoState.currentOutfitIndex + 1
                        currentPoseIndex := 0 }, 0) :=
  applyGarment_cacheHit_reuse redoState itemA (Except.error "network down")
    (by decide) rfl (by decide)

/-- C6: `selectPose` to a pose whose (truthy) image is already cached in the
current layer is synchronous: for any Gateway outcome it makes zero Gateway
calls and changes exactly the pose index — history, catalog, error and
loading flag are all unchanged. -/
theorem selectPose_cached_sync (s : AppState) (newIndex : Nat) (img : String)
    (gw : GatewayResult)
    (hload : s.isLoading = false) (hne : s.outfitHistory ≠ [])
    (hdiff : newIndex ≠ s.currentPoseIndex)
    (hcache : objGet (layerAtCursor s).poseImages
      (jsGetD s.poseInstructions newIndex) = some img)
    (himg : img ≠ "") :
    handlePoseSelect s newIndex gw = ({ s with currentPoseIndex := newIndex }, 0) := by
  have hbeq : (newIndex == s.currentPoseIndex) = false := by simp [hdiff]
  have hcached : poseCached s (jsGetD s.poseInstructions newIndex) = true := by
    simp [poseCached, hcache, himg]
  simp [handlePoseSelect, hload, hne, hbeq, hcached]

theorem selectPose_cached_sync_witness :
    handlePoseSelect twoPoseState 1 (Except.error "network down") =
      ({ twoPoseState with currentPoseIndex := 1 }, 0) :=
  selectPose_cached_sync twoPoseState 1 "m1" (Except.error "network down")
    rfl (by decide) (by decide) (by decide) (by decide)

/-- C7: when the Gateway repose call fails on the generation path of
`selectPose`, the optimistic pose-index update is exactly reverted, the
history (hence the current layer's `poseImages`) is unchanged, the error
slot is non-empty, and the busy flag is released. -/
theorem selectPose_failure_revert (s : AppState) (newIndex : Nat) (e : String)
    (hload : s.isLoading = false) (hne : s.outfitHistory ≠ [])
    (hdiff : newIndex ≠ s.currentPoseIndex)
    (hmiss : poseCached s (jsGetD s.poseInstructions newIndex) = false)
    (hbase : baseImageOf (layerAtCursor s) ≠ "") :
    (handlePoseSelect s newIndex (Except.error e)).1.currentPoseIndex = s.currentPoseIndex ∧
    (handlePoseSelect s newIndex (Except.error e)).1.outfitHistory = s.outfitHistory ∧
    (handlePoseSelect s newIndex (Except.error e)).1.error ≠ none ∧
    (handlePoseSelect s newIndex (Except.error e)).1.isLoading = false := by
  have hbeq : (newIndex == s.currentPoseIndex) = false := by simp [hdiff]
  have hb : (baseImageOf (layerAtCursor s) == "") = false := by simp [hbase]
  simp [handlePoseSelect, hload, hne, hbeq, hmiss, hb, poseSelectGateway]

theorem selectPose_failure_revert_witness :
    (handlePoseSelect oneLayerState 1 (Except.error "boom")).1.currentPoseIndex =
      oneLayerState.currentPoseIndex ∧
    (handlePoseSelect oneLayerState 1 (Except.error "boom")).1.outfitHistory =
      oneLayerState.outfitHistory ∧
    (handlePoseSelect oneLayerState 1 (Except.error "boom")).1.error ≠ none ∧
    (handlePoseSelect oneLayerState 1 (Except.error "boom")).1.isLoading = false :=
  selectPose_failure_revert oneLayerState 1 "boom"
    rfl (by decide) (by decide) (by decide) (by decide)

/-- C8: a `generateCustomPose` whose trimmed text matches an existing
catalog entry case-insensitively appends nothing — the whole call is the
delegation to `selectPose` at the first matching index, and the catalog
(hence its length) is unchanged in every branch of that delegation. -/
theorem customPose_dedup (s : AppState) (posePrompt : String) (idx : Nat)
    (gw : GatewayResult)
    (htrim : jsTrim posePrompt ≠ "") (hload : s.isLoading = false)
    (hdisp : hasDisplay s = true)
    (hfind : s.poseInstructions.findIdx?
      (fun p => jsToLower p == jsToLower (jsTrim posePrompt)) = some idx) :
    handleCustomPoseGenerate s posePrompt gw = handlePoseSelect s idx gw ∧
    (handleCustomPoseGenerate s posePrompt gw).1.poseInstructions = s.poseInstructions := by
  have ht : (jsTrim posePrompt == "") = false := by simp [htrim]
  have h1 : handleCustomPoseGenerate s posePrompt gw = handlePoseSelect s idx gw := by
    simp [handleCustomPoseGenerate, ht, hload, hdisp, hfind]
  exact ⟨h1, h1 ▸ handlePoseSelect_poseInstructions s idx gw⟩

theorem customPose_dedup_witness :
    handleCustomPoseGenerate dedupState " side PROFILE " (Except.ok "i9") =
      handlePoseSelect dedupState 0 (Except.ok "i9") ∧
    (handleCustomPoseGenerate dedupState " side PROFILE " (Except.ok "i9")).1.poseInstructions =
      dedupState.poseInstructions :=
  customPose_dedup dedupState " side PROFILE " 0 (Except.ok "i9")
    (by decide) rfl (by decide) (by decide)

/-- C2: on the generation path (no cache hit at `currentIndex + 1`) with a
successful Gateway call, the history becomes the prior history truncated to
`[0, currentIndex]` — destroying every redo-buffer entry beyond the prior
cursor — with exactly one new layer `{garment := item, poseImages :=
{currentPoseInstruction ↦ resultImage}}` appended; the Gateway is called
exactly once and the cursor lands on the new last index, prior cursor + 1. -/
theorem applyGarment_gateway_push (s : AppState) (item : WardrobeItem)
    (img cpi : String)
    (hdisp : hasDisplay s = true) (hload : s.isLoading = false)
    (hmiss : cacheHit s item = false)
    (hcpi : s.poseInstructions[s.currentPoseIndex]? = some cpi)
    (hcur : s.currentOutfitIndex < s.outfitHistory.length) :
    (handleGarmentSelect s item (Except.ok img)).2 = 1 ∧
    (handleGarmentSelect s item (Except.ok img)).1.outfitHistory =
      s.outfitHistory.take (s.currentOutfitIndex + 1) ++
        [{ garment := some item, poseImages := [(cpi, img)] }] ∧
    (handleGarmentSelect s item (Except.ok img)).1.currentOutfitIndex =
      s.currentOutfitIndex + 1 ∧
    (handleGarmentSelect s item (Except.ok img)).1.currentOutfitIndex + 1 =
      (handleGarmentSelect s item (Except.ok img)).1.outfitHistory.length := by
  have hkey : jsGetD s.poseInstructions s.currentPoseIndex = cpi :=
    getD_of_getElem? _ _ _ _ hcpi
  have hred : handleGarmentSelect s item (Except.ok img) =
      garmentSelectGateway s item (Except.ok img) := by
    simp [handleGarmentSelect, hdisp, hload, hmiss]
  rw [hred]
  refine ⟨rfl, ?_, rfl, ?_⟩
  · simp [garmentSelectGateway, jsGetD, hcpi]
  · simp only [garmentSelectGateway]
    simp [List.length_take]
    omega

theorem applyGarment_gateway_push_witness :
    (handleGarmentSelect oneLayerState itemA (Except.ok "i1")).2 = 1 ∧
    (handleGarmentSelect oneLayerState itemA (Except.ok "i1")).1.outfitHistory =
      oneLayerState.outfitHistory.take (oneLayerState.currentOutfitIndex + 1) ++
        [{ garment := some itemA, poseImages := [("A", "i1")] }] ∧
    (handleGarmentSelect oneLayerState itemA (Except.ok "i1")).1.currentOutfitIndex =
      oneLayerState.currentOutfitIndex + 1 ∧
    (handleGarmentSelect oneLayerState itemA (Except.ok "i1")).1.currentOutfitIndex + 1 =
      (handleGarmentSelect oneLayerState itemA (Except.ok "i1")).1.outfitHistory.length :=
  applyGarment_gateway_push oneLayerState itemA "i1" "A"
    (by decide) rfl (by decide) (by decide) (by decide)

/-- C5: a successful `changeBackground` replaces exactly the current pose's
entry of the layer at the cursor: that layer keeps its garment and gets
`poseImages[currentPoseInstruction] = newImage`; every other pose key of the
layer still maps to the very value it mapped to before, every other layer of
the history is returned unchanged, and the history length is preserved. -/
theorem changeBackground_frame (s : AppState) (img cpi : String) (L : OutfitLayer)
    (hload : s.isLoading = false) (hdisp : hasDisplay s = true)
    (hL : s.outfitHistory[s.currentOutfitIndex]? = some L)
    (hcpi : s.poseInstructions[s.currentPoseIndex]? = some cpi)
    (hne : cpi ≠ "") :
    (handleBackgroundChange s (Except.ok img)).1.outfitHistory[s.currentOutfitIndex]? =
      some { garment := L.garment, poseImages := objSet L.poseImages cpi img } ∧
    objGet (objSet L.poseImages cpi img) cpi = some img ∧
    (∀ k, k ≠ cpi → objGet (objSet L.poseImages cpi img) k = objGet L.poseImages k) ∧
    (∀ j, j ≠ s.currentOutfitIndex →
      (handleBackgroundChange s (Except.ok img)).1.outfitHistory[j]? =
        s.outfitHistory[j]?) ∧
    (handleBackgroundChange s (Except.ok img)).1.outfitHistory.length =
      s.outfitHistory.length := by
  have hkey : s.poseInstructions.getD s.currentPoseIndex "" = cpi :=
    getD_of_getElem? _ _ _ _ hcpi
  have hlt : s.currentOutfitIndex < s.outfitHistory.length := by
    by_contra hc
    rw [List.getElem?_eq_none (Nat.le_of_not_lt hc)] at hL
    exact Option.noConfusion hL
  have hred : (handleBackgroundChange s (Except.ok img)).1.outfitHistory =
      s.outfitHistory.set s.currentOutfitIndex
        { garment := L.garment, poseImages := objSet L.poseImages cpi img } := by
    simp [handleBackgroundChange, hload, hdisp, hL, hcpi, hne]
  refine ⟨?_, objGet_objSet_self _ _ _,
    fun k hk => objGet_objSet_other _ _ _ _ hk, fun j hj => ?_, ?_⟩
  · rw [hred]
    exact List.getElem?_set_self hlt
  · rw [hred]
    exact List.getElem?_set_ne (Ne.symm hj)
  · rw [hred]
    exact List.length_set s.outfitHistory _ _

theorem changeBackground_frame_witness :
    (handleBackgroundChange twoPoseState (Except.ok "bg1")).1.outfitHistory[twoPoseState.currentOutfitIndex]? =
      some { garment := (none : Option WardrobeItem)
             poseImages := objSet [("A", "m0"), ("B", "m1")] "A" "bg1" } ∧
    objGet (objSet [("A", "m0"), ("B", "m1")] "A" "bg1") "A" = some "bg1" ∧
    (∀ k, k ≠ "A" → objGet (objSet [("A", "m0"), ("B", "m1")] "A" "bg1") k =
      objGet [("A", "m0"), ("B", "m1")] k) ∧
    (∀ j, j ≠ twoPoseState.currentOutfitIndex →
      (handleBackgroundChange twoPoseState (Except.ok "bg1")).1.outfitHistory[j]? =
        twoPoseState.outfitHistory[j]?) ∧
    (handleBackgroundChange twoPoseState (Except.ok "bg1")).1.outfitHistory.length =
      twoPoseState.outfitHistory.length :=
  changeBackground_frame twoPoseState "bg1" "A"
    { garment := none, poseImages := [("A", "m0"), ("B", "m1")] }
    rfl (by decide) (by decide) (by decide) (by decide)

/-- C10: each of the four Gateway-invoking operation paths sets the error
slot to `null` before suspending at its Gateway call (in the embedding, the
intermediate state threaded into the call already carries `error := none`),
so whatever stale error the session held beforehand, after a successful
resolution the error slot is `none`. -/
theorem gateway_success_clears_error (s : AppState) (item : WardrobeItem)
    (newIndex : Nat) (posePrompt img : String) :
    (hasDisplay s = true → s.isLoading = false → cacheHit s item = false →
      (handleGarmentSelect s item (Except.ok img)).1.error = none) ∧
    (s.isLoading = false → s.outfitHistory ≠ [] → newIndex ≠ s.currentPoseIndex →
      poseCached s (jsGetD s.poseInstructions newIndex) = false →
      baseImageOf (layerAtCursor s) ≠ "" →
      (handlePoseSelect s newIndex (Except.ok img)).1.error = none) ∧
    (jsTrim posePrompt ≠ "" → s.isLoading = false → hasDisplay s = true →
      s.poseInstructions.findIdx?
        (fun p => jsToLower p == jsToLower (jsTrim posePrompt)) = none →
      baseImageOf (layerAtCursor s) ≠ "" →
      (handleCustomPoseGenerate s posePrompt (Except.ok img)).1.error = none) ∧
    (s.isLoading = false → hasDisplay s = true →
      (handleBackgroundChange s (Except.ok img)).1.error = none) := by
  refine ⟨fun h1 h2 h3 => ?_, fun h1 h2 h3 h4 h5 => ?_,
    fun h1 h2 h3 h4 h5 => ?_, fun h1 h2 => ?_⟩
  · simp [handleGarmentSelect, h1, h2, h3, garmentSelectGateway]
  · have hbeq : (newIndex == s.currentPoseIndex) = false := by simp [h3]
    have hb : (baseImageOf (layerAtCursor s) == "") = false := by simp [h5]
    simp [handlePoseSelect, h1, h2, hbeq, h4, hb, poseSelectGateway]
  · have ht : (jsTrim posePrompt == "") = false := by simp [h1]
    have hb : (baseImageOf (layerAtCursor s) == "") = false := by simp [h5]
    simp [handleCustomPoseGenerate, ht, h2, h3, h4, hb, customPoseGateway]
  · simp [handleBackgroundChange, h1, h2]

theorem gateway_success_clears_error_witness :
    (handleGarmentSelect oneLayerState itemA (Except.ok "i1")).1.error = none ∧
    (handlePoseSelect oneLayerState 1 (Except.ok "i1")).1.error = none ∧
    (handleCustomPoseGenerate oneLayerState "New pose" (Except.ok "i1")).1.error = none ∧
    (handleBackgroundChange oneLayerState (Except.ok "i1")).1.error = none ∧
    oneLayerState.error = some "old failure" := by
  have h := gateway_success_clears_error oneLayerState itemA 1 "New pose" "i1"
  exact ⟨h.1 (by decide) rfl (by decide),
    h.2.1 rfl (by decide) (by decide) (by decide) (by decide),
    h.2.2.1 (by decide) rfl (by decide) (by decide) (by decide),
    h.2.2.2 rfl (by decide), rfl⟩

/-- C9 counterexample: in a reachable session whose active layer rendered
pose "B" before pose "A" (catalog ["A", "B", "C"], current pose "B"), the
code's forward navigation follows the key-insertion order ["B", "A"] and
targets catalog index 0, while the claim's catalog-ordered subsequence
["A", "B"] makes "B" the last available element and demands the fallback
target (1 + 1) % 3 = 2 — so the claim, as stated, fails here. -/
theorem cycleNext_catalog_order_counterexample :
    availablePoseKeys poseOrderState = ["B", "A"] ∧
    handleNextPose false poseOrderState.poseInstructions
      poseOrderState.currentPoseIndex (availablePoseKeys poseOrderState) = some 0 ∧
    specCycleNextCatalog poseOrderState.poseInstructions
      poseOrderState.currentPoseIndex (availablePoseKeys poseOrderState) = some 2 ∧
    handleNextPose false poseOrderState.poseInstructions
      poseOrderState.currentPoseIndex (availablePoseKeys poseOrderState) ≠
      specCycleNextCatalog poseOrderState.poseInstructions
        poseOrderState.currentPoseIndex (availablePoseKeys poseOrderState) := by
  decide

/-- C9 (amended; counterexample `cycleNext_catalog_order_counterexample`):
forward pose navigation consumes the available subsequence in KEY-INSERTION
order (the order the layer's poses were rendered, `availablePoseKeys`), not
in catalog order.  If the current instruction occurs in that subsequence and
is not its last element, the target is the catalog index of the subsequence's
next element; otherwise — current instruction last in the subsequence, absent
from it, or subsequence empty — the target is
`(currentPoseIndex + 1) % catalogLength`, regardless of cache state. -/
theorem cycleNext_insertion_order (pi keys : List String) (cur i g : Nat) :
    (keys.findIdx? (fun p => p == jsGetD pi cur) = none →
      handleNextPose false pi cur keys = some ((cur + 1) % pi.length)) ∧
    (keys.findIdx? (fun p => p == jsGetD pi cur) = some i → i + 1 = keys.length →
      handleNextPose false pi cur keys = some ((cur + 1) % pi.length)) ∧
    (keys.findIdx? (fun p => p == jsGetD pi cur) = some i → i + 1 < keys.length →
      pi.findIdx? (fun p => p == jsGetD keys (i + 1)) = some g →
      handleNextPose false pi cur keys = some g) := by
  refine ⟨fun h => ?_, fun h1 h2 => ?_, fun h1 h2 h3 => ?_⟩
  · simp [handleNextPose, h]
  · simp only [handleNextPose, if_false, Bool.false_eq_true, h1]
    rw [if_neg (by omega)]
  · simp [handleNextPose, h1, h2, h3]

theorem objGet_mem_values (m : PoseImages) (k v : String)
    (h : objGet m k = some v) : ∃ p ∈ m, p.2 = v := by
  unfold objGet at h
  rcases hf : m.find? (fun p => p.1 == k) with _ | q
  · rw [hf] at h
    exact Option.noConfusion h
  · rw [hf] at h
    exact ⟨q, List.mem_of_find?_eq_some hf, Option.some.inj h⟩

/-- A ready state always has a truthy displayed image: the cursor layer
either caches the current pose or supplies its first rendered image as the
fallback. -/
theorem hasDisplay_of_ready (s : AppState) (h : ReadyState s) :
    hasDisplay s = true := by
  obtain ⟨hlen, -, L, hL, hne, hvals⟩ := h
  have hemp : s.outfitHistory.isEmpty = false := by
    cases hh : s.outfitHistory with
    | nil => rw [hh] at hlen; simp at hlen
    | cons a t => simp [hh]
  have main : ∀ o : Option String,
      o = objGet L.poseImages (jsGetD s.poseInstructions s.currentPoseIndex) →
      (match o with
       | some img => some img
       | none => (L.poseImages.map (fun p : String × String => p.2)).head?).getD "" ≠ "" := by
    intro o ho
    cases o with
    | some v =>
      obtain ⟨p, hp, hv⟩ := objGet_mem_values _ _ _ ho.symm
      simpa using hv ▸ hvals p hp
    | none =>
      cases hpi : L.poseImages with
      | nil => exact absurd hpi hne
      | cons p t =>
        simpa [hpi] using hvals p (by rw [hpi]; exact List.mem_cons_self p t)
  unfold hasDisplay displayImageUrl
  simp only [hemp, hL, Bool.false_eq_true, if_false, decide_eq_true_eq]
  exact main _ rfl

/-- One successful garment apply from a ready state: exactly one Gateway
call, the cursor and the history length both grow by one, and the resulting
state is ready again. -/
theorem applyGarment_step (s : AppState) (item : WardrobeItem) (img : String)
    (h : ReadyState s) (himg : img ≠ "") :
    ReadyState (handleGarmentSelect s item (Except.ok img)).1 ∧
    (handleGarmentSelect s item (Except.ok img)).1.currentOutfitIndex =
      s.currentOutfitIndex + 1 ∧
    (handleGarmentSelect s item (Except.ok img)).1.outfitHistory.length =
      s.outfitHistory.length + 1 ∧
    (handleGarmentSelect s item (Except.ok img)).2 = 1 := by
  have hdisp := hasDisplay_of_ready s h
  obtain ⟨hlen, hload, L, hL, hLok⟩ := h
  have hmiss : cacheHit s item = false := by
    unfold cacheHit
    rw [List.getElem?_eq_none (by omega)]
  have hred : handleGarmentSelect s item (Except.ok img) =
      garmentSelectGateway s item (Except.ok img) := by
    simp [handleGarmentSelect, hdisp, hload, hmiss]
  have htake : s.outfitHistory.take (s.currentOutfitIndex + 1) = s.outfitHistory := by
    rw [hlen]
    exact List.take_length s.outfitHistory
  have hres : garmentSelectGateway s item (Except.ok img) =
      ({ s with error := none
                outfitHistory := s.outfitHistory ++
                  [{ garment := some item
                     poseImages := [(jsGetD s.poseInstructions s.currentPoseIndex, img)] }]
                currentOutfitIndex := s.currentOutfitIndex + 1
                wardrobe := if s.wardrobe.any (fun it => it.id == item.id)
                  then s.wardrobe else s.wardrobe ++ [item]
                isLoading := false, loadingMessage := "" }, 1) := by
    simp only [garmentSelectGateway, htake]
  rw [hred, hres]
  refine ⟨⟨?_, rfl, ?_⟩, rfl, ?_, rfl⟩
  · simp only [List.length_append, List.length_cons, List.length_nil]
    omega
  · refine ⟨{ garment := some item
              poseImages := [(jsGetD s.poseInstructions s.currentPoseIndex, img)] }, ?_, ?_, ?_⟩
    · show (s.outfitHistory ++ [_])[s.currentOutfitIndex + 1]? = _
      rw [hlen]
      exact List.getElem?_concat_length _ _
    · simp
    · intro p hp
      simp at hp
      rw [hp]
      exact himg
  · simp only [List.length_append, List.length_cons, List.length_nil]

/-- Iterating successful garment applies from a ready state adds one layer
and one cursor step per apply. -/
theorem applyMany_ready (ops : List (WardrobeItem × String)) (s : AppState)
    (h : ReadyState s) (hops : ∀ op ∈ ops, op.2 ≠ "") :
    ReadyState (applyMany s ops) ∧
    (applyMany s ops).currentOutfitIndex = s.currentOutfitIndex + ops.length ∧
    (applyMany s ops).outfitHistory.length = s.outfitHistory.length + ops.length := by
  induction ops generalizing s with
  | nil => exact ⟨h, rfl, rfl⟩
  | cons op t ih =>
    obtain ⟨h1, h2, h3, -⟩ :=
      applyGarment_step s op.1 op.2 h (hops op (List.mem_cons_self op t))
    obtain ⟨g1, g2, g3⟩ := ih (handleGarmentSelect s op.1 (Except.ok op.2)).1 h1
      (fun o ho => hops o (List.mem_cons_of_mem op ho))
    have hstep : applyMany s (op :: t) =
        applyMany (handleGarmentSelect s op.1 (Except.ok op.2)).1 t := rfl
    rw [hstep]
    refine ⟨g1, ?_, ?_⟩
    · rw [g2, h2, List.length_cons]; omega
    · rw [g3, h3, List.length_cons]; omega

/-- `finalizeModel` from a not-busy session yields a ready single-layer
history. -/
theorem ready_after_finalize (init : AppState) (url : String)
    (hload : init.isLoading = false) (hurl : url ≠ "") :
    ReadyState (handleModelFinalized init url) := by
  refine ⟨rfl, hload,
    ⟨{ garment := none, poseImages := [(jsGetD init.poseInstructions 0, url)] },
      rfl, by simp, ?_⟩⟩
  intro p hp
  simp at hp
  rw [hp]
  exact hurl

/-- C4: `finalizeModel` on an empty history creates exactly one root layer
with no garment and cursor 0; after N further successful (non-cache-hit, as
forced by the cursor sitting at the end throughout) garment applies the
cursor is N and the history length is N + 1. -/
theorem fresh_model_applyN (init : AppState) (url : String)
    (ops : List (WardrobeItem × String))
    (_hempty : init.outfitHistory = []) (hload : init.isLoading = false)
    (hurl : url ≠ "") (hops : ∀ op ∈ ops, op.2 ≠ "") :
    (handleModelFinalized init url).outfitHistory.length = 1 ∧
    ((handleModelFinalized init url).outfitHistory.getD 0 emptyLayer).garment = none ∧
    (handleModelFinalized init url).currentOutfitIndex = 0 ∧
    (applyMany (handleModelFinalized init url) ops).currentOutfitIndex = ops.length ∧
    (applyMany (handleModelFinalized init url) ops).outfitHistory.length =
      ops.length + 1 := by
  obtain ⟨-, h2, h3⟩ := applyMany_ready ops (handleModelFinalized init url)
    (ready_after_finalize init url hload hurl) hops
  refine ⟨rfl, rfl, rfl, ?_, ?_⟩
  · rw [h2, show (handleModelFinalized init url).currentOutfitIndex = 0 from rfl]
    omega
  · rw [h3, show (handleModelFinalized init url).outfitHistory.length = 1 from rfl]
    omega

theorem fresh_model_applyN_witness :
    (handleModelFinalized freshInit "m0").outfitHistory.length = 1 ∧
    ((handleModelFinalized freshInit "m0").outfitHistory.getD 0 emptyLayer).garment = none ∧
    (handleModelFinalized freshInit "m0").currentOutfitIndex = 0 ∧
    (applyMany (handleModelFinalized freshInit "m0")
      [(itemA, "i1"), (itemB, "i2")]).currentOutfitIndex = 2 ∧
    (applyMany (handleModelFinalized freshInit "m0")
      [(itemA, "i1"), (itemB, "i2")]).outfitHistory.length = 2 + 1 :=
  fresh_model_applyN freshInit "m0" [(itemA, "i1"), (itemB, "i2")]
    rfl rfl (by decide) (by decide)

theorem cycleNext_insertion_order_witness :
    handleNextPose false ["A", "B", "C"] 0 ([] : List String) = some 1 ∧
    handleNextPose false ["A", "B", "C"] 0 ["A"] = some 1 ∧
    handleNextPose false ["A", "B", "C"] 0 ["A", "B"] = some 1 :=
  ⟨(cycleNext_insertion_order ["A", "B", "C"] [] 0 0 0).1 (by decide),
   (cycleNext_insertion_order ["A", "B", "C"] ["A"] 0 0 0).2.1 (by decide) (by decide),
   (cycleNext_insertion_order ["A", "B", "C"] ["A", "B"] 0 0 1).2.2
     (by decide) (by decide) (by decide)⟩

end VTO
